import Mathlib

/-!
Verification of the OpenFOAM hardware-check bottleneck estimator.

The repository holds two near-identical variants of one program:
`hardware_checker.py` (flat core count, namespace `HWC` below) and
`ofhc.py` (core count factored as processors x cores-per-processor,
namespace `OFHC` below).  Both share the same ratio scorer
(`checked_requirements`), numeric formatter (`fmt`), ranking step
(Python's stable `sorted` by the ratio component, `rank` below) and
report line format (`resultLine`).

Python's real arithmetic is embedded as exact rationals (ℚ); Python's
`round` (round-half-to-even) is `roundHalfEven`.  Division by zero,
which raises `ZeroDivisionError` in Python, is modelled in a second,
`Option`-valued embedding (the `...E` definitions) where `none` stands
for the propagated raw fault; the total-function embedding is used for
the claims whose hypotheses keep every denominator non-zero.
-/

/-- Python's built-in `round` on exact rationals: round half to even. -/
def roundHalfEven (q : ℚ) : ℤ :=
  let f := ⌊q⌋
  let frac := q - (f : ℚ)
  if frac < 1/2 then f
  else if 1/2 < frac then f + 1
  else if f % 2 = 0 then f else f + 1

/-- Helper for the thousands separator of Python's `,` format spec: the input
is the digit list least-significant first; a comma is inserted before every
digit whose index is a positive multiple of three. -/
def commaRev : List Char → Nat → List Char
  | [], _ => []
  | c :: rest, k =>
    if 0 < k ∧ k % 3 = 0 then ',' :: c :: commaRev rest (k + 1)
    else c :: commaRev rest (k + 1)

/-- Insert thousands separators into a digit string, as Python's `,` format
spec does for the integer part. -/
def groupThousands (s : String) : String :=
  String.mk (commaRev s.toList.reverse 0).reverse

/-- Left-pad a digit string with zeros to the requested width. -/
def padLeftZeros (s : String) (width : Nat) : String :=
  String.mk (List.replicate (width - s.length) '0' ++ s.toList)

/-- Python's fixed-point format `f"{val:,.{digits}f}"`, idealised over exact
rationals: the value is rounded (half to even) at `digits` decimal places and
rendered with a thousands-separated integer part. -/
def fmtFixed (val : ℚ) (digits : Nat) : String :=
  let scaled := roundHalfEven (val * (10 : ℚ) ^ digits)
  let sign := if val < 0 then "-" else ""
  let n := scaled.natAbs
  let ip := n / 10 ^ digits
  let fp := n % 10 ^ digits
  let ipCommas := groupThousands (Nat.repr ip)
  if digits = 0 then sign ++ ipCommas
  else sign ++ ipCommas ++ "." ++ padLeftZeros (Nat.repr fp) digits

/-- The inner `fmt` of `checked_requirements` (identical in both source
files): zero renders as "0"; otherwise the number of decimal digits is
`max(3 - len(str(int(abs(val)))), 0)` and the value is rendered in
fixed-point with thousands separators.  (Numeric values are always of the
`isinstance` branch in this embedding.) -/
def fmt (val : ℚ) : String :=
  if val = 0 then "0"
  else
    let digits := 3 - (Nat.repr (Int.natAbs ⌊|val|⌋)).length
    fmtFixed val digits

/-- The tuple `(ratio, ratio_fmt, title, actual_fmt, target_fmt, mark)`
returned by `checked_requirements` in both source files, as a structure.
The two trailing ghost fields `actual` and `required` record the raw
numerator and denominator that were passed in (the Python tuple carries
them only via the formatted strings `actual_fmt`/`target_fmt`); they let
the specification talk about the raw compared quantities. -/
structure CheckedResult where
  ratio : ℚ
  ratio_fmt : String
  title : String
  actual_fmt : String
  target_fmt : String
  mark : String
  actual : ℚ
  required : ℚ
deriving DecidableEq

/-- The shared ratio scorer `checked_requirements(title, numerator,
denominator)` of both source files: `ratio = numerator / denominator`,
mark `[✗]` when `ratio < 1` and `[✓]` otherwise, percentage string
`f'{round(ratio*100)} %'`, and the two operands formatted with `fmt`. -/
def checked_requirements (title : String) (numerator denominator : ℚ) : CheckedResult :=
  let ratio := numerator / denominator
  let mark := if ratio < 1 then "[✗]" else "[✓]"
  let ratio_fmt := toString (roundHalfEven (ratio * 100)) ++ " %"
  let actual_fmt := fmt numerator
  let target_fmt := fmt denominator
  { ratio := ratio, ratio_fmt := ratio_fmt, title := title,
    actual_fmt := actual_fmt, target_fmt := target_fmt, mark := mark,
    actual := numerator, required := denominator }

/-- The advisory line printed by `estimate_bottleneck_cpu_count` in both
source files, with the already-rounded cell cap. -/
def core_cap_advisory (cells : ℤ) : String :=
  "Do not use all cores for computing. Limit the simulation to " ++ toString cells

/-- The Bottleneck Ranker: `sorted(functions, key=lambda f: f[0])` in both
source files.  Python's `sorted` is an ascending stable sort by the key (the
ratio component); `List.mergeSort` with the ratio comparison is the same
stable ascending sort. -/
def rank (l : List CheckedResult) : List CheckedResult :=
  l.mergeSort (fun a b => decide (a.ratio ≤ b.ratio))

/-- Left-justifying pad of Python's `{x:<n}` format spec. -/
def padRight (s : String) (width : Nat) : String :=
  s ++ String.mk (List.replicate (width - s.length) ' ')

/-- One report line, `f'{title:<22} Actual: {actual_fmt:<10} Target:
{target_fmt:<10} {ratio_fmt:<5} {mark:<5}'` in both source files. -/
def resultLine (r : CheckedResult) : String :=
  padRight r.title 22 ++ " Actual: " ++ padRight r.actual_fmt 10 ++
    " Target: " ++ padRight r.target_fmt 10 ++ " " ++ padRight r.ratio_fmt 5 ++
    " " ++ padRight r.mark 5

/-- Guarded division: `none` models Python's `ZeroDivisionError`. -/
def divE (a b : ℚ) : Option ℚ :=
  if b = 0 then none else some (a / b)

/-- `checked_requirements` under Python division semantics: the scorer's
`numerator / denominator` raises on a zero denominator. -/
def checked_requirementsE (title : String) (numerator denominator : ℚ) :
    Option CheckedResult :=
  if denominator = 0 then none
  else some (checked_requirements title numerator denominator)

namespace HWC

/-- hardware_checker.py `estimate_bottleneck_cpu_count`: required cores are
`num_cells / 100_000`; additionally, when `min_ratio_cpu_count =
50_000 / (num_cells / num_cpu_cores)` exceeds 1, the function prints an
advisory capping the run at `round(num_cells / min_ratio_cpu_count)` cells.
The printed advisory lines are returned alongside the scored result. -/
def estimate_bottleneck_cpu_count (num_cells num_cpu_cores : ℚ) :
    List String × CheckedResult :=
  let min_cells_per_core : ℚ := 50000
  let actual_cells_per_core := num_cells / num_cpu_cores
  let min_ratio_cpu_count := min_cells_per_core / actual_cells_per_core
  let advisories :=
    if 1 < min_ratio_cpu_count then
      [core_cap_advisory (roundHalfEven (num_cells / min_ratio_cpu_count))]
    else []
  let max_cells_per_core : ℚ := 100000
  let required_num_cores := num_cells / max_cells_per_core
  (advisories, checked_requirements "CPU Cores" num_cpu_cores required_num_cores)

/-- hardware_checker.py `estimate_bottleneck_cpu_speed`: direct ratio against
the 3.0 GHz reference clock. -/
def estimate_bottleneck_cpu_speed (cpu_speed_ghz : ℚ) : CheckedResult :=
  let reference_ghz : ℚ := 3
  checked_requirements "CPU Clock-Speed (GHZ)" cpu_speed_ghz reference_ghz

/-- hardware_checker.py `estimate_bottleneck_cpu_l3_cache`: 2 MB of L3 cache
per core. -/
def estimate_bottleneck_cpu_l3_cache (num_cores cpu_l3_cache_capacity_mb : ℚ) :
    CheckedResult :=
  let reference_mb_per_core : ℚ := 2
  let required_cache_mb := num_cores * reference_mb_per_core
  checked_requirements "CPU L3 Cache (MB)" cpu_l3_cache_capacity_mb required_cache_mb

/-- hardware_checker.py `estimate_bottleneck_ram_capacity`: 2 GB of RAM per
million cells. -/
def estimate_bottleneck_ram_capacity (num_cells actual_ram_capacity_gb : ℚ) :
    CheckedResult :=
  let min_gb_ram_per_million_cells : ℚ := 2
  let required_ram_capacity_gb := num_cells / 1000000 * min_gb_ram_per_million_cells
  checked_requirements "RAM Capacity (GB)" actual_ram_capacity_gb required_ram_capacity_gb

/-- hardware_checker.py `estimate_bottleneck_ram_channels`: this variant
passes the constant cap of 4 cores per channel as the numerator and the
actual cores-per-channel load as the denominator. -/
def estimate_bottleneck_ram_channels (num_cores num_ram_channels : ℚ) :
    CheckedResult :=
  let max_cores_per_ram_channel : ℚ := 4
  let cores_per_channel := num_cores / num_ram_channels
  checked_requirements "RAM Channels" max_cores_per_ram_channel cores_per_channel

/-- hardware_checker.py `estimate_bottleneck_ram_bandwidth`: actual bandwidth
is the theoretical `speed_mts * 1e6 * 8 * channels / 1e9` GB/s derated by the
0.7 efficiency factor; required bandwidth is 2 GB/s per core. -/
def estimate_bottleneck_ram_bandwidth (num_cpu_cores ram_speed_mts num_ram_channels : ℚ) :
    CheckedResult :=
  let required_bandwidth_per_core_gbs : ℚ := 2
  let bytes_per_transfer : ℚ := 8
  let theoretical_bandwidth_gbs :=
    ram_speed_mts * 1000000 * bytes_per_transfer * num_ram_channels / 1000000000
  let bandwidth_efficiency : ℚ := 7/10
  let actual_bandwidth_gbs := theoretical_bandwidth_gbs * bandwidth_efficiency
  let required_bandwidth_gbs := num_cpu_cores * required_bandwidth_per_core_gbs
  checked_requirements "RAM Bandwidth (GB/s)" actual_bandwidth_gbs required_bandwidth_gbs

/-- hardware_checker.py `estimate_gpu_vram_recommendations`: 1 GB of VRAM per
12 million cells. -/
def estimate_gpu_vram_recommendations (num_cells gpu_vram_gb : ℚ) : CheckedResult :=
  let recommended_vram_gb_per_million_cells : ℚ := 1/12
  let recommended_vram_gb := num_cells / 1000000 * recommended_vram_gb_per_million_cells
  checked_requirements "Virtual RAM (GB)" gpu_vram_gb recommended_vram_gb

/-- hardware_checker.py `estimate_cfd_requirements`: runs the seven
estimators in source order and sorts the results ascending by ratio.  The
first component collects the advisory lines printed while the estimator
list is built (only the CPU-core estimator prints); the second is the
ranked result list the report loop iterates over. -/
def estimate_cfd_requirements (num_cells ram_capacity_gb num_ram_channels ram_speed_mts
    num_cpu_cores cpu_speed_ghz cpu_l3_cache_capacity_mb gpu_vram_gb : ℚ) :
    List String × List CheckedResult :=
  let cpu := estimate_bottleneck_cpu_count num_cells num_cpu_cores
  let functions : List CheckedResult := [
    estimate_bottleneck_ram_capacity num_cells ram_capacity_gb,
    estimate_bottleneck_ram_channels num_cpu_cores num_ram_channels,
    estimate_bottleneck_ram_bandwidth num_cpu_cores ram_speed_mts num_ram_channels,
    cpu.2,
    estimate_bottleneck_cpu_speed cpu_speed_ghz,
    estimate_bottleneck_cpu_l3_cache num_cpu_cores cpu_l3_cache_capacity_mb,
    estimate_gpu_vram_recommendations num_cells gpu_vram_gb]
  (cpu.1, rank functions)

/-- The whole run of hardware_checker.py's engine with the output stream made
explicit: `stdout` is the list of lines already printed when the call starts;
the call appends its advisory lines and then one report line per ranked
result, and the ranked results are returned for inspection.  The Python
module keeps no other state (every estimator reads only its parameters). -/
def runChecker (num_cells ram_capacity_gb num_ram_channels ram_speed_mts
    num_cpu_cores cpu_speed_ghz cpu_l3_cache_capacity_mb gpu_vram_gb : ℚ)
    (stdout : List String) : List String × List CheckedResult :=
  let out := estimate_cfd_requirements num_cells ram_capacity_gb num_ram_channels
    ram_speed_mts num_cpu_cores cpu_speed_ghz cpu_l3_cache_capacity_mb gpu_vram_gb
  (stdout ++ out.1 ++ out.2.map resultLine, out.2)

/-- hardware_checker.py `estimate_bottleneck_cpu_count` under Python division
semantics: `num_cells / num_cpu_cores` and the scorer's division can raise. -/
def estimate_bottleneck_cpu_countE (num_cells num_cpu_cores : ℚ) :
    Option (List String × CheckedResult) := do
  let actual_cells_per_core ← divE num_cells num_cpu_cores
  let min_ratio_cpu_count ← divE 50000 actual_cells_per_core
  let advisories :=
    if 1 < min_ratio_cpu_count then
      [core_cap_advisory (roundHalfEven (num_cells / min_ratio_cpu_count))]
    else []
  let res ← checked_requirementsE "CPU Cores" num_cpu_cores (num_cells / 100000)
  some (advisories, res)

/-- hardware_checker.py `estimate_bottleneck_ram_capacity` under Python
division semantics (the scorer raises when the required capacity is zero,
i.e. when `num_cells = 0`). -/
def estimate_bottleneck_ram_capacityE (num_cells actual_ram_capacity_gb : ℚ) :
    Option CheckedResult :=
  checked_requirementsE "RAM Capacity (GB)" actual_ram_capacity_gb
    (num_cells / 1000000 * 2)

/-- hardware_checker.py `estimate_bottleneck_ram_channels` under Python
division semantics: `num_cores / num_ram_channels` raises when the channel
count is zero, and the scorer raises when `cores_per_channel` is zero. -/
def estimate_bottleneck_ram_channelsE (num_cores num_ram_channels : ℚ) :
    Option CheckedResult := do
  let cores_per_channel ← divE num_cores num_ram_channels
  checked_requirementsE "RAM Channels" 4 cores_per_channel

/-- hardware_checker.py `estimate_bottleneck_ram_bandwidth` under Python
division semantics (the scorer raises when `num_cpu_cores = 0`). -/
def estimate_bottleneck_ram_bandwidthE (num_cpu_cores ram_speed_mts num_ram_channels : ℚ) :
    Option CheckedResult :=
  checked_requirementsE "RAM Bandwidth (GB/s)"
    (ram_speed_mts * 1000000 * 8 * num_ram_channels / 1000000000 * (7/10))
    (num_cpu_cores * 2)

/-- hardware_checker.py `estimate_bottleneck_cpu_speed` under Python division
semantics (the 3.0 GHz reference is never zero, so this never raises). -/
def estimate_bottleneck_cpu_speedE (cpu_speed_ghz : ℚ) : Option CheckedResult :=
  checked_requirementsE "CPU Clock-Speed (GHZ)" cpu_speed_ghz 3

/-- hardware_checker.py `estimate_bottleneck_cpu_l3_cache` under Python
division semantics (the scorer raises when `num_cores = 0`). -/
def estimate_bottleneck_cpu_l3_cacheE (num_cores cpu_l3_cache_capacity_mb : ℚ) :
    Option CheckedResult :=
  checked_requirementsE "CPU L3 Cache (MB)" cpu_l3_cache_capacity_mb (num_cores * 2)

/-- hardware_checker.py `estimate_gpu_vram_recommendations` under Python
division semantics (the scorer raises when `num_cells = 0`). -/
def estimate_gpu_vram_recommendationsE (num_cells gpu_vram_gb : ℚ) :
    Option CheckedResult :=
  checked_requirementsE "Virtual RAM (GB)" gpu_vram_gb
    (num_cells / 1000000 * (1/12))

/-- hardware_checker.py `estimate_cfd_requirements` under Python division
semantics: the estimator list is evaluated in source order and the first
`ZeroDivisionError` aborts the whole evaluation (`none`); no validation of
the inputs happens before or between the estimator calls. -/
def estimate_cfd_requirementsE (num_cells ram_capacity_gb num_ram_channels ram_speed_mts
    num_cpu_cores cpu_speed_ghz cpu_l3_cache_capacity_mb gpu_vram_gb : ℚ) :
    Option (List String × List CheckedResult) := do
  let r1 ← estimate_bottleneck_ram_capacityE num_cells ram_capacity_gb
  let r2 ← estimate_bottleneck_ram_channelsE num_cpu_cores num_ram_channels
  let r3 ← estimate_bottleneck_ram_bandwidthE num_cpu_cores ram_speed_mts num_ram_channels
  let cpu ← estimate_bottleneck_cpu_countE num_cells num_cpu_cores
  let r5 ← estimate_bottleneck_cpu_speedE cpu_speed_ghz
  let r6 ← estimate_bottleneck_cpu_l3_cacheE num_cpu_cores cpu_l3_cache_capacity_mb
  let r7 ← estimate_gpu_vram_recommendationsE num_cells gpu_vram_gb
  some (cpu.1, rank [r1, r2, r3, cpu.2, r5, r6, r7])

end HWC

namespace OFHC

/-- ofhc.py `estimate_bottleneck_cpu_count`: as in the other variant, with the
total core count factored as `num_cpu_cores * num_processors`. -/
def estimate_bottleneck_cpu_count (num_cells num_processors num_cpu_cores : ℚ) :
    List String × CheckedResult :=
  let min_cells_per_core : ℚ := 50000
  let actual_cells_per_core := num_cells / (num_cpu_cores * num_processors)
  let min_ratio_cpu_count := min_cells_per_core / actual_cells_per_core
  let advisories :=
    if 1 < min_ratio_cpu_count then
      [core_cap_advisory (roundHalfEven (num_cells / min_ratio_cpu_count))]
    else []
  let max_cells_per_core : ℚ := 100000
  let required_num_cores := num_cells / max_cells_per_core
  (advisories,
    checked_requirements "CPU Cores" (num_cpu_cores * num_processors) required_num_cores)

/-- ofhc.py `estimate_bottleneck_cpu_speed`: identical to the other variant. -/
def estimate_bottleneck_cpu_speed (cpu_speed_ghz : ℚ) : CheckedResult :=
  let reference_ghz : ℚ := 3
  checked_requirements "CPU Clock-Speed (GHZ)" cpu_speed_ghz reference_ghz

/-- ofhc.py `estimate_bottleneck_cpu_l3_cache(num_cpu_cores, num_cores,
cpu_l3_cache_capacity_mb)`: 2 MB of L3 cache per core, with the core count
the product of the first two parameters (the caller passes the processor
count and the per-processor core count). -/
def estimate_bottleneck_cpu_l3_cache (num_cpu_cores num_cores cpu_l3_cache_capacity_mb : ℚ) :
    CheckedResult :=
  let reference_mb_per_core : ℚ := 2
  let required_cache_mb := num_cpu_cores * num_cores * reference_mb_per_core
  checked_requirements "CPU L3 Cache (MB)" cpu_l3_cache_capacity_mb required_cache_mb

/-- ofhc.py `estimate_bottleneck_ram_capacity`: identical to the other
variant. -/
def estimate_bottleneck_ram_capacity (num_cells actual_ram_capacity_gb : ℚ) :
    CheckedResult :=
  let min_gb_ram_per_million_cells : ℚ := 2
  let required_ram_capacity_gb := num_cells / 1000000 * min_gb_ram_per_million_cells
  checked_requirements "RAM Capacity (GB)" actual_ram_capacity_gb required_ram_capacity_gb

/-- ofhc.py `estimate_bottleneck_ram_channels`: this variant passes the
actual channel count as the numerator and the required channel count
`total_cores / 4` as the denominator. -/
def estimate_bottleneck_ram_channels (num_processors num_cores num_ram_channels : ℚ) :
    CheckedResult :=
  let max_cores_per_ram_channel : ℚ := 4
  let required_channels := num_cores * num_processors / max_cores_per_ram_channel
  checked_requirements "RAM Channels" num_ram_channels required_channels

/-- ofhc.py `estimate_bottleneck_ram_bandwidth`: as in the other variant,
with the required side scaled by the processor count. -/
def estimate_bottleneck_ram_bandwidth
    (num_processors num_cpu_cores ram_speed_mts num_ram_channels : ℚ) : CheckedResult :=
  let required_bandwidth_per_core_gbs : ℚ := 2
  let bytes_per_transfer : ℚ := 8
  let theoretical_bandwidth_gbs :=
    ram_speed_mts * 1000000 * bytes_per_transfer * num_ram_channels / 1000000000
  let bandwidth_efficiency : ℚ := 7/10
  let actual_bandwidth_gbs := theoretical_bandwidth_gbs * bandwidth_efficiency
  let required_bandwidth_gbs := num_processors * num_cpu_cores * required_bandwidth_per_core_gbs
  checked_requirements "RAM Bandwidth (GB/s)" actual_bandwidth_gbs required_bandwidth_gbs

/-- ofhc.py `estimate_gpu_vram_recommendations`: identical to the other
variant. -/
def estimate_gpu_vram_recommendations (num_cells gpu_vram_gb : ℚ) : CheckedResult :=
  let recommended_vram_gb_per_million_cells : ℚ := 1/12
  let recommended_vram_gb := num_cells / 1000000 * recommended_vram_gb_per_million_cells
  checked_requirements "Virtual RAM (GB)" gpu_vram_gb recommended_vram_gb

/-- ofhc.py `estimate_cfd_requirements`: the seven estimators in source
order, results sorted ascending by ratio; the processor count is threaded
through the core-dependent estimators. -/
def estimate_cfd_requirements (num_cells ram_capacity_gb num_ram_channels ram_speed_mts
    num_processors num_cpu_cores cpu_speed_ghz cpu_l3_cache_capacity_mb gpu_vram_gb : ℚ) :
    List String × List CheckedResult :=
  let cpu := estimate_bottleneck_cpu_count num_cells num_processors num_cpu_cores
  let functions : List CheckedResult := [
    estimate_bottleneck_ram_capacity num_cells ram_capacity_gb,
    estimate_bottleneck_ram_channels num_processors num_cpu_cores num_ram_channels,
    estimate_bottleneck_ram_bandwidth num_processors num_cpu_cores ram_speed_mts num_ram_channels,
    cpu.2,
    estimate_bottleneck_cpu_speed cpu_speed_ghz,
    estimate_bottleneck_cpu_l3_cache num_processors num_cpu_cores cpu_l3_cache_capacity_mb,
    estimate_gpu_vram_recommendations num_cells gpu_vram_gb]
  (cpu.1, rank functions)

/-- The whole run of ofhc.py's engine with the output stream made explicit,
as for the other variant. -/
def runChecker (num_cells ram_capacity_gb num_ram_channels ram_speed_mts
    num_processors num_cpu_cores cpu_speed_ghz cpu_l3_cache_capacity_mb gpu_vram_gb : ℚ)
    (stdout : List String) : List String × List CheckedResult :=
  let out := estimate_cfd_requirements num_cells ram_capacity_gb num_ram_channels
    ram_speed_mts num_processors num_cpu_cores cpu_speed_ghz cpu_l3_cache_capacity_mb
    gpu_vram_gb
  (stdout ++ out.1 ++ out.2.map resultLine, out.2)

end OFHC

/-! Helper lemmas about the scorer, the ranker and the estimators. -/

/-- The scorer's ratio component is the quotient of its raw operands. -/
theorem ratio_checked (t : String) (a b : ℚ) : (checked_requirements t a b).ratio = a / b := rfl

/-- The scorer's verdict mark as the comparison of the ratio against 1. -/
theorem mark_checked (t : String) (a b : ℚ) :
    (checked_requirements t a b).mark = if a / b < 1 then "[✗]" else "[✓]" := rfl

/-- The scorer passes its label through unchanged. -/
theorem title_checked (t : String) (a b : ℚ) : (checked_requirements t a b).title = t := rfl

/-- The scorer records its raw numerator as the actual value. -/
theorem actual_checked (t : String) (a b : ℚ) : (checked_requirements t a b).actual = a := rfl

/-- The scorer records its raw denominator as the required value. -/
theorem required_checked (t : String) (a b : ℚ) : (checked_requirements t a b).required = b := rfl

/-- The ratio comparison used by the ranker is transitive. -/
theorem rank_le_trans : ∀ a b c : CheckedResult, decide (a.ratio ≤ b.ratio) = true →
    decide (b.ratio ≤ c.ratio) = true → decide (a.ratio ≤ c.ratio) = true := by
  intro a b c hab hbc
  rw [decide_eq_true_eq] at *
  exact le_trans hab hbc

/-- The ratio comparison used by the ranker is total. -/
theorem rank_le_total : ∀ a b : CheckedResult,
    (decide (a.ratio ≤ b.ratio) || decide (b.ratio ≤ a.ratio)) = true := by
  intro a b
  rw [Bool.or_eq_true, decide_eq_true_eq, decide_eq_true_eq]
  exact le_total a.ratio b.ratio

/-- Ranking keeps exactly the input results. -/
theorem mem_rank_iff (x : CheckedResult) (l : List CheckedResult) : x ∈ rank l ↔ x ∈ l :=
  (List.mergeSort_perm l _).mem_iff

/-- The ranked output is ascending in the ratio component. -/
theorem rank_sorted (l : List CheckedResult) :
    (rank l).Pairwise (fun a b => a.ratio ≤ b.ratio) := by
  have h := List.sorted_mergeSort rank_le_trans rank_le_total l
  exact h.imp (fun hab => decide_eq_true_eq.mp hab)

/-- A result strictly below every other input result is ranked first. -/
theorem head_of_rank_min {l : List CheckedResult} {x : CheckedResult} (hx : x ∈ l)
    (hmin : ∀ y ∈ l, y ≠ x → x.ratio < y.ratio) : (rank l).head? = some x := by
  have hperm := List.mergeSort_perm l (fun a b => decide (a.ratio ≤ b.ratio))
  have hsorted : (rank l).Pairwise (fun a b => a.ratio ≤ b.ratio) := rank_sorted l
  have hxr : x ∈ rank l := (mem_rank_iff x l).mpr hx
  cases hrl : rank l with
  | nil => rw [hrl] at hxr; cases hxr
  | cons a t =>
    rw [hrl] at hxr hsorted
    rcases List.mem_cons.mp hxr with rfl | hxt
    · rfl
    · by_cases ha : a = x
      · rw [ha]
        rfl
      · have hax : a.ratio ≤ x.ratio := (List.pairwise_cons.mp hsorted).1 x hxt
        have hal : a ∈ l := (mem_rank_iff a l).mp (hrl ▸ List.mem_cons_self a t)
        exact absurd hax (not_le.mpr (hmin a hal ha))

/-- The ratio computed by hardware_checker.py's RAM-capacity estimator. -/
theorem HWC.ratio_ram_capacity (c g : ℚ) :
    (HWC.estimate_bottleneck_ram_capacity c g).ratio = g / (c / 1000000 * 2) := rfl

/-- The ratio computed by hardware_checker.py's RAM-channel estimator. -/
theorem HWC.ratio_ram_channels (n ch : ℚ) :
    (HWC.estimate_bottleneck_ram_channels n ch).ratio = 4 / (n / ch) := rfl

/-- The ratio computed by hardware_checker.py's RAM-bandwidth estimator. -/
theorem HWC.ratio_ram_bandwidth (n s ch : ℚ) :
    (HWC.estimate_bottleneck_ram_bandwidth n s ch).ratio =
      s * 1000000 * 8 * ch / 1000000000 * (7/10) / (n * 2) := rfl

/-- The ratio computed by hardware_checker.py's CPU-core-count estimator. -/
theorem HWC.ratio_cpu_count (c n : ℚ) :
    (HWC.estimate_bottleneck_cpu_count c n).2.ratio = n / (c / 100000) := rfl

/-- The ratio computed by hardware_checker.py's CPU-clock-speed estimator. -/
theorem HWC.ratio_cpu_speed (g : ℚ) :
    (HWC.estimate_bottleneck_cpu_speed g).ratio = g / 3 := rfl

/-- The ratio computed by hardware_checker.py's L3-cache estimator. -/
theorem HWC.ratio_cpu_l3 (n m : ℚ) :
    (HWC.estimate_bottleneck_cpu_l3_cache n m).ratio = m / (n * 2) := rfl

/-- The ratio computed by hardware_checker.py's GPU-VRAM estimator. -/
theorem HWC.ratio_gpu (c v : ℚ) :
    (HWC.estimate_gpu_vram_recommendations c v).ratio = v / (c / 1000000 * (1/12)) := rfl

/-- The ratio computed by ofhc.py's RAM-channel estimator. -/
theorem OFHC.ratio_ram_channels_factored (p n ch : ℚ) :
    (OFHC.estimate_bottleneck_ram_channels p n ch).ratio = ch / (n * p / 4) := rfl

/-- The label of hardware_checker.py's RAM-capacity estimator. -/
theorem HWC.title_ram_capacity (c g : ℚ) :
    (HWC.estimate_bottleneck_ram_capacity c g).title = "RAM Capacity (GB)" := rfl

/-- The label of hardware_checker.py's RAM-channel estimator. -/
theorem HWC.title_ram_channels (n ch : ℚ) :
    (HWC.estimate_bottleneck_ram_channels n ch).title = "RAM Channels" := rfl

/-- The label of hardware_checker.py's RAM-bandwidth estimator. -/
theorem HWC.title_ram_bandwidth (n s ch : ℚ) :
    (HWC.estimate_bottleneck_ram_bandwidth n s ch).title = "RAM Bandwidth (GB/s)" := rfl

/-- The label of hardware_checker.py's CPU-core-count estimator. -/
theorem HWC.title_cpu_count (c n : ℚ) :
    (HWC.estimate_bottleneck_cpu_count c n).2.title = "CPU Cores" := rfl

/-- The label of hardware_checker.py's CPU-clock-speed estimator. -/
theorem HWC.title_cpu_speed (g : ℚ) :
    (HWC.estimate_bottleneck_cpu_speed g).title = "CPU Clock-Speed (GHZ)" := rfl

/-- The label of hardware_checker.py's L3-cache estimator. -/
theorem HWC.title_cpu_l3 (n m : ℚ) :
    (HWC.estimate_bottleneck_cpu_l3_cache n m).title = "CPU L3 Cache (MB)" := rfl

/-- The label of hardware_checker.py's GPU-VRAM estimator. -/
theorem HWC.title_gpu (c v : ℚ) :
    (HWC.estimate_gpu_vram_recommendations c v).title = "Virtual RAM (GB)" := rfl

/-- C1: for every actual value and every non-zero required value, the ratio
scorer `checked_requirements` returns ratio exactly `actual / required`, its
mark is the pass mark `[✓]` exactly when the ratio is at least 1 and the
fail mark `[✗]` exactly when the ratio is below 1, and the display-string
formatting does not feed back into the ratio or the verdict: any operands
with the same quotient get the same ratio and the same mark, whatever their
formatted strings are. -/
theorem C1_ratio_scorer (title : String) (actual required : ℚ) (h : required ≠ 0) :
    (checked_requirements title actual required).ratio = actual / required ∧
    ((checked_requirements title actual required).mark = "[✓]" ↔ 1 ≤ actual / required) ∧
    ((checked_requirements title actual required).mark = "[✗]" ↔ actual / required < 1) ∧
    (∀ (t2 : String) (a2 r2 : ℚ), a2 / r2 = actual / required →
      (checked_requirements t2 a2 r2).ratio = (checked_requirements title actual required).ratio ∧
      (checked_requirements t2 a2 r2).mark = (checked_requirements title actual required).mark) := by
  refine ⟨rfl, ?_, ?_, ?_⟩
  · rw [mark_checked]
    by_cases hlt : actual / required < 1
    · rw [if_pos hlt]
      exact iff_of_false (by decide) (not_le.mpr hlt)
    · rw [if_neg hlt]
      exact iff_of_true rfl (not_lt.mp hlt)
  · rw [mark_checked]
    by_cases hlt : actual / required < 1
    · rw [if_pos hlt]
      exact iff_of_true rfl hlt
    · rw [if_neg hlt]
      exact iff_of_false (by decide) hlt
  · intro t2 a2 r2 heq
    constructor
    · rw [ratio_checked, ratio_checked, heq]
    · rw [mark_checked, mark_checked, heq]

/-- Witness for C1 at the spec's Example 4 operands (actual 60.48 GB/s,
required 40 GB/s). -/
theorem C1_witness :
    (40 : ℚ) ≠ 0 ∧
    ((checked_requirements "RAM Bandwidth (GB/s)" (6048/100) 40).ratio = 6048/100 / 40 ∧
    ((checked_requirements "RAM Bandwidth (GB/s)" (6048/100) 40).mark = "[✓]" ↔
      (1 : ℚ) ≤ 6048/100 / 40) ∧
    ((checked_requirements "RAM Bandwidth (GB/s)" (6048/100) 40).mark = "[✗]" ↔
      (6048/100 / 40 : ℚ) < 1) ∧
    (∀ (t2 : String) (a2 r2 : ℚ), a2 / r2 = 6048/100 / 40 →
      (checked_requirements t2 a2 r2).ratio =
        (checked_requirements "RAM Bandwidth (GB/s)" (6048/100) 40).ratio ∧
      (checked_requirements t2 a2 r2).mark =
        (checked_requirements "RAM Bandwidth (GB/s)" (6048/100) 40).mark)) :=
  ⟨by norm_num, C1_ratio_scorer "RAM Bandwidth (GB/s)" (6048/100) 40 (by norm_num)⟩

/-- C2: the Bottleneck Ranker returns a permutation of its input, the ratio
values along the output are monotonically non-decreasing, and the sort is
stable: for every ratio value, the subsequence of output results carrying
that ratio equals the input's subsequence with that ratio, in input order. -/
theorem C2_ranker_stable_ascending (l : List CheckedResult) :
    (rank l).Perm l ∧
    (rank l).Pairwise (fun a b => a.ratio ≤ b.ratio) ∧
    ∀ q : ℚ, (rank l).filter (fun r => decide (r.ratio = q)) =
      l.filter (fun r => decide (r.ratio = q)) := by
  refine ⟨List.mergeSort_perm l _, rank_sorted l, ?_⟩
  intro q
  have hsub : (l.filter (fun r => decide (r.ratio = q))).Sublist l := List.filter_sublist l
  have hpw : (l.filter (fun r => decide (r.ratio = q))).Pairwise
      (fun a b => (decide (a.ratio ≤ b.ratio)) = true) := by
    apply List.pairwise_of_forall_mem_list
    intro a ha b hb
    rw [List.mem_filter, decide_eq_true_eq] at ha hb
    rw [decide_eq_true_eq, ha.2, hb.2]
  have h1 : (l.filter (fun r => decide (r.ratio = q))).Sublist (rank l) :=
    List.sublist_mergeSort rank_le_trans rank_le_total hpw hsub
  have h2 := List.Sublist.filter (fun r => decide (r.ratio = q)) h1
  have h3 : (l.filter (fun r => decide (r.ratio = q))).filter (fun r => decide (r.ratio = q))
      = l.filter (fun r => decide (r.ratio = q)) :=
    List.filter_eq_self.mpr (fun a ha => (List.mem_filter.mp ha).2)
  rw [h3] at h2
  have hperm : ((rank l).filter (fun r => decide (r.ratio = q))).Perm
      (l.filter (fun r => decide (r.ratio = q))) :=
    List.Perm.filter _ (List.mergeSort_perm l _)
  exact (h2.eq_of_length hperm.length_eq.symm).symm

/-- C3 record: the entry point `estimate_cfd_requirements` performs no input
validation at all.  With zero RAM channels the evaluation dies inside the
RAM-channels estimator with a raw ZeroDivisionError (modelled by `none`),
with a zero cell count it dies inside the first (RAM-capacity) estimator,
and with a negative cell count no rejection happens: every estimator runs
and a full seven-row ranked report is produced. -/
theorem C3_no_validation :
    HWC.estimate_cfd_requirementsE 10000000 64 0 2700 20 2 64 0 = none ∧
    HWC.estimate_cfd_requirementsE 0 64 4 2700 20 2 64 0 = none ∧
    (HWC.estimate_cfd_requirementsE (-1) 64 4 2700 20 2 64 0).isSome = true ∧
    (HWC.estimate_cfd_requirements (-1) 64 4 2700 20 2 64 0).2.length = 7 := by
  refine ⟨?_, ?_, ?_, ?_⟩
  · norm_num [HWC.estimate_cfd_requirementsE, HWC.estimate_bottleneck_ram_capacityE,
      HWC.estimate_bottleneck_ram_channelsE, checked_requirementsE, divE, Option.bind]
  · norm_num [HWC.estimate_cfd_requirementsE, HWC.estimate_bottleneck_ram_capacityE,
      checked_requirementsE, divE, Option.bind]
  · norm_num [HWC.estimate_cfd_requirementsE, HWC.estimate_bottleneck_ram_capacityE,
      HWC.estimate_bottleneck_ram_channelsE, HWC.estimate_bottleneck_ram_bandwidthE,
      HWC.estimate_bottleneck_cpu_countE, HWC.estimate_bottleneck_cpu_speedE,
      HWC.estimate_bottleneck_cpu_l3_cacheE, HWC.estimate_gpu_vram_recommendationsE,
      checked_requirementsE, divE, Option.bind]
  · show (rank _).length = 7
    rw [rank, List.length_mergeSort]
    rfl

/-- C4 counterexample: in hardware_checker.py the RAM-channel estimator does
not put the channel count in the actual field and `total_cores / 4` in the
required field: at 20 cores and 2 channels it hands the scorer the pair
(4, 10) — the constant cores-per-channel cap and the actual
cores-per-channel load — not (2, 5). -/
theorem C4_counterexample :
    (HWC.estimate_bottleneck_ram_channels 20 2).actual = 4 ∧
    ¬ (HWC.estimate_bottleneck_ram_channels 20 2).actual = 2 ∧
    (HWC.estimate_bottleneck_ram_channels 20 2).required = 20 / 2 ∧
    ¬ (HWC.estimate_bottleneck_ram_channels 20 2).required = 20 / 4 := by
  refine ⟨rfl, ?_, rfl, ?_⟩
  · show ¬ (4 : ℚ) = 2
    norm_num
  · show ¬ (20 / 2 : ℚ) = 20 / 4
    norm_num

/-- C4 amended: for every positive core count, channel count and processor
count, the RAM-channel ratio equals `channels / (total_cores / 4)` in both
variants, and in the ofhc.py variant the actual field is the channel count
and the required field is `total_cores / 4`; the hardware_checker.py
variant, however, passes the constant 4 as the actual value and the
cores-per-channel load as the required value (same ratio, swapped and
inverted display operands). -/
theorem C4_ram_channel_direction (cores channels procs : ℚ)
    (hcore : 0 < cores) (hch : 0 < channels) (hpr : 0 < procs) :
    (HWC.estimate_bottleneck_ram_channels cores channels).ratio = channels / (cores / 4) ∧
    (HWC.estimate_bottleneck_ram_channels cores channels).actual = 4 ∧
    (HWC.estimate_bottleneck_ram_channels cores channels).required = cores / channels ∧
    (OFHC.estimate_bottleneck_ram_channels procs cores channels).ratio
      = channels / (cores * procs / 4) ∧
    (OFHC.estimate_bottleneck_ram_channels procs cores channels).actual = channels ∧
    (OFHC.estimate_bottleneck_ram_channels procs cores channels).required
      = cores * procs / 4 := by
  refine ⟨?_, rfl, rfl, rfl, rfl, rfl⟩
  rw [HWC.ratio_ram_channels, div_div_eq_mul_div, div_div_eq_mul_div]
  ring

/-- Witness for C4's amended claim at 20 cores, 2 channels, 1 processor. -/
theorem C4_witness :
    (0 : ℚ) < 20 ∧ (0 : ℚ) < 2 ∧ (0 : ℚ) < 1 ∧
    ((HWC.estimate_bottleneck_ram_channels 20 2).ratio = 2 / (20 / 4) ∧
    (HWC.estimate_bottleneck_ram_channels 20 2).actual = 4 ∧
    (HWC.estimate_bottleneck_ram_channels 20 2).required = 20 / 2 ∧
    (OFHC.estimate_bottleneck_ram_channels 1 20 2).ratio = 2 / (20 * 1 / 4) ∧
    (OFHC.estimate_bottleneck_ram_channels 1 20 2).actual = 2 ∧
    (OFHC.estimate_bottleneck_ram_channels 1 20 2).required = 20 * 1 / 4) :=
  ⟨by norm_num, by norm_num, by norm_num,
    C4_ram_channel_direction 20 2 1 (by norm_num) (by norm_num) (by norm_num)⟩

/-- C5 counterexample: the two variants' RAM-channel ratios are never
different — for all positive core and channel counts (with one processor in
the factored variant) they coincide, so they are not mutually reciprocal
either: at 20 cores and 2 channels both ratios are 2/5 (the reciprocal
would be 5/2). -/
theorem C5_counterexample :
    (¬ ∃ cores channels : ℚ, 0 < cores ∧ 0 < channels ∧
      (HWC.estimate_bottleneck_ram_channels cores channels).ratio ≠
        (OFHC.estimate_bottleneck_ram_channels 1 cores channels).ratio) ∧
    (HWC.estimate_bottleneck_ram_channels 20 2).ratio = 2/5 ∧
    (OFHC.estimate_bottleneck_ram_channels 1 20 2).ratio = 2/5 := by
  refine ⟨?_, ?_, ?_⟩
  · rintro ⟨c, n, hc, hn, hne⟩
    apply hne
    rw [HWC.ratio_ram_channels, OFHC.ratio_ram_channels_factored,
      div_div_eq_mul_div, div_div_eq_mul_div, mul_one]
    ring
  · rw [HWC.ratio_ram_channels]; norm_num
  · rw [OFHC.ratio_ram_channels_factored]; norm_num

/-- C5 amended: the two variants pass swapped-and-inverted operand pairs to
the scorer — hardware_checker.py passes (4, cores/channels) and ofhc.py
passes (channels, cores*1/4) — but for every positive core and channel count
(with one processor) the resulting ratio values are equal, not reciprocal. -/
theorem C5_variants_agree (cores channels : ℚ) (hcore : 0 < cores) (hch : 0 < channels) :
    (HWC.estimate_bottleneck_ram_channels cores channels).ratio =
      (OFHC.estimate_bottleneck_ram_channels 1 cores channels).ratio ∧
    (HWC.estimate_bottleneck_ram_channels cores channels).actual = 4 ∧
    (HWC.estimate_bottleneck_ram_channels cores channels).required = cores / channels ∧
    (OFHC.estimate_bottleneck_ram_channels 1 cores channels).actual = channels ∧
    (OFHC.estimate_bottleneck_ram_channels 1 cores channels).required = cores * 1 / 4 := by
  refine ⟨?_, rfl, rfl, rfl, rfl⟩
  rw [HWC.ratio_ram_channels, OFHC.ratio_ram_channels_factored,
    div_div_eq_mul_div, div_div_eq_mul_div, mul_one]
  ring

/-- Witness for C5's amended claim at 20 cores and 2 channels. -/
theorem C5_witness :
    (0 : ℚ) < 20 ∧ (0 : ℚ) < 2 ∧
    ((HWC.estimate_bottleneck_ram_channels 20 2).ratio =
      (OFHC.estimate_bottleneck_ram_channels 1 20 2).ratio ∧
    (HWC.estimate_bottleneck_ram_channels 20 2).actual = 4 ∧
    (HWC.estimate_bottleneck_ram_channels 20 2).required = 20 / 2 ∧
    (OFHC.estimate_bottleneck_ram_channels 1 20 2).actual = 2 ∧
    (OFHC.estimate_bottleneck_ram_channels 1 20 2).required = 20 * 1 / 4) :=
  ⟨by norm_num, by norm_num, C5_variants_agree 20 2 (by norm_num) (by norm_num)⟩

/-- C6: for positive cell and core counts, the CPU-core-count estimator's
ratio is `cores / (cells / 100_000)`; it emits the core-cap advisory exactly
when `cells / cores < 50_000`, advising `cells / (50_000 / (cells / cores))`
cells (rounded for display); and at 10 million cells with 20 cores the ratio
is 0.20 with a fail verdict and no advisory (500,000 cells per core is above
the 50,000 floor). -/
theorem C6_cpu_count_estimator (cells cores : ℚ) (hc : 0 < cells) (hn : 0 < cores) :
    (HWC.estimate_bottleneck_cpu_count cells cores).2.ratio = cores / (cells / 100000) ∧
    ((HWC.estimate_bottleneck_cpu_count cells cores).1 =
      if cells / cores < 50000 then
        [core_cap_advisory (roundHalfEven (cells / (50000 / (cells / cores))))] else []) ∧
    ((HWC.estimate_bottleneck_cpu_count cells cores).1 ≠ [] ↔ cells / cores < 50000) ∧
    (HWC.estimate_bottleneck_cpu_count 10000000 20).2.ratio = 20/100 ∧
    (HWC.estimate_bottleneck_cpu_count 10000000 20).2.mark = "[✗]" ∧
    (HWC.estimate_bottleneck_cpu_count 10000000 20).1 = [] := by
  have hcc : 0 < cells / cores := div_pos hc hn
  have hiff : (1 < 50000 / (cells / cores)) ↔ cells / cores < 50000 := one_lt_div hcc
  have hadv : (HWC.estimate_bottleneck_cpu_count cells cores).1 =
      if cells / cores < 50000 then
        [core_cap_advisory (roundHalfEven (cells / (50000 / (cells / cores))))] else [] := by
    by_cases hck : cells / cores < 50000
    · rw [if_pos hck]
      show (if 1 < 50000 / (cells / cores) then
          [core_cap_advisory (roundHalfEven (cells / (50000 / (cells / cores))))] else []) = _
      rw [if_pos (hiff.mpr hck)]
    · rw [if_neg hck]
      show (if 1 < 50000 / (cells / cores) then
          [core_cap_advisory (roundHalfEven (cells / (50000 / (cells / cores))))] else []) = _
      rw [if_neg (fun hx => hck (hiff.mp hx))]
  refine ⟨rfl, hadv, ?_, ?_, ?_, ?_⟩
  · rw [hadv]
    by_cases hck : cells / cores < 50000
    · rw [if_pos hck]
      simp [hck]
    · rw [if_neg hck]
      simp [hck]
  · rw [HWC.ratio_cpu_count]; norm_num
  · norm_num [HWC.estimate_bottleneck_cpu_count, mark_checked]
  · norm_num [HWC.estimate_bottleneck_cpu_count]

/-- Witness for C6 at the spec's Example 1 inputs (10 million cells, 20
cores). -/
theorem C6_witness :
    (0 : ℚ) < 10000000 ∧ (0 : ℚ) < 20 ∧
    ((HWC.estimate_bottleneck_cpu_count 10000000 20).2.ratio = 20 / (10000000 / 100000) ∧
    ((HWC.estimate_bottleneck_cpu_count 10000000 20).1 =
      if (10000000 : ℚ) / 20 < 50000 then
        [core_cap_advisory (roundHalfEven (10000000 / (50000 / (10000000 / 20))))] else []) ∧
    ((HWC.estimate_bottleneck_cpu_count 10000000 20).1 ≠ [] ↔ (10000000 : ℚ) / 20 < 50000) ∧
    (HWC.estimate_bottleneck_cpu_count 10000000 20).2.ratio = 20/100 ∧
    (HWC.estimate_bottleneck_cpu_count 10000000 20).2.mark = "[✗]" ∧
    (HWC.estimate_bottleneck_cpu_count 10000000 20).1 = []) :=
  ⟨by norm_num, by norm_num, C6_cpu_count_estimator 10000000 20 (by norm_num) (by norm_num)⟩

/-- C7: with zero GPU VRAM and a positive cell count the GPU estimator
returns ratio 0 with the fail mark (no error is raised), its required value
is `cells / 1e6 / 12` GB (5/6 GB for 10 million cells), its ratio is the
lowest of all seven resources, and in the ranked output (ascending, most
constrained first) the GPU result is the first element. -/
theorem C7_gpu_zero_vram (cells ram channels speed cores ghz cache : ℚ)
    (hc : 0 < cells) (hram : 0 < ram) (hch : 0 < channels) (hsp : 0 < speed)
    (hcore : 0 < cores) (hg : 0 < ghz) (hca : 0 < cache) :
    (HWC.estimate_gpu_vram_recommendations cells 0).ratio = 0 ∧
    (HWC.estimate_gpu_vram_recommendations cells 0).mark = "[✗]" ∧
    (HWC.estimate_gpu_vram_recommendations cells 0).required = cells / 1000000 * (1/12) ∧
    (HWC.estimate_gpu_vram_recommendations 10000000 0).required = 5/6 ∧
    (∀ s ∈ (HWC.estimate_cfd_requirements cells ram channels speed cores ghz cache 0).2,
      (HWC.estimate_gpu_vram_recommendations cells 0).ratio ≤ s.ratio) ∧
    (HWC.estimate_cfd_requirements cells ram channels speed cores ghz cache 0).2.head? =
      some (HWC.estimate_gpu_vram_recommendations cells 0) := by
  have hr0 : (HWC.estimate_gpu_vram_recommendations cells 0).ratio = 0 := by
    rw [HWC.ratio_gpu, zero_div]
  have h1 : 0 < (HWC.estimate_bottleneck_ram_capacity cells ram).ratio := by
    rw [HWC.ratio_ram_capacity]; positivity
  have h2 : 0 < (HWC.estimate_bottleneck_ram_channels cores channels).ratio := by
    rw [HWC.ratio_ram_channels]; positivity
  have h3 : 0 < (HWC.estimate_bottleneck_ram_bandwidth cores speed channels).ratio := by
    rw [HWC.ratio_ram_bandwidth]; positivity
  have h4 : 0 < (HWC.estimate_bottleneck_cpu_count cells cores).2.ratio := by
    rw [HWC.ratio_cpu_count]; positivity
  have h5 : 0 < (HWC.estimate_bottleneck_cpu_speed ghz).ratio := by
    rw [HWC.ratio_cpu_speed]; positivity
  have h6 : 0 < (HWC.estimate_bottleneck_cpu_l3_cache cores cache).ratio := by
    rw [HWC.ratio_cpu_l3]; positivity
  have hsnd : (HWC.estimate_cfd_requirements cells ram channels speed cores ghz cache 0).2
      = rank [HWC.estimate_bottleneck_ram_capacity cells ram,
          HWC.estimate_bottleneck_ram_channels cores channels,
          HWC.estimate_bottleneck_ram_bandwidth cores speed channels,
          (HWC.estimate_bottleneck_cpu_count cells cores).2,
          HWC.estimate_bottleneck_cpu_speed ghz,
          HWC.estimate_bottleneck_cpu_l3_cache cores cache,
          HWC.estimate_gpu_vram_recommendations cells 0] := rfl
  refine ⟨hr0, ?_, rfl, ?_, ?_, ?_⟩
  · show (if (0 : ℚ) / (cells / 1000000 * (1/12)) < 1 then "[✗]" else "[✓]") = "[✗]"
    rw [zero_div]
    norm_num
  · show (10000000 : ℚ) / 1000000 * (1/12) = 5/6
    norm_num
  · intro s hs
    rw [hsnd, mem_rank_iff] at hs
    rw [hr0]
    simp only [List.mem_cons, List.not_mem_nil, or_false] at hs
    rcases hs with rfl | rfl | rfl | rfl | rfl | rfl | rfl
    exacts [h1.le, h2.le, h3.le, h4.le, h5.le, h6.le, hr0.ge]
  · rw [hsnd]
    apply head_of_rank_min
    · simp
    · intro y hy hne
      rw [hr0]
      simp only [List.mem_cons, List.not_mem_nil, or_false] at hy
      rcases hy with rfl | rfl | rfl | rfl | rfl | rfl | rfl
      exacts [h1, h2, h3, h4, h5, h6, absurd rfl hne]

/-- Witness for C7 at the module's default hardware with 10 million cells. -/
theorem C7_witness :
    (0 : ℚ) < 10000000 ∧ (0 : ℚ) < 64 ∧ (0 : ℚ) < 4 ∧ (0 : ℚ) < 2700 ∧
    (0 : ℚ) < 20 ∧ (0 : ℚ) < 2 ∧ (0 : ℚ) < 64 ∧
    ((HWC.estimate_gpu_vram_recommendations 10000000 0).ratio = 0 ∧
    (HWC.estimate_gpu_vram_recommendations 10000000 0).mark = "[✗]" ∧
    (HWC.estimate_gpu_vram_recommendations 10000000 0).required = 10000000 / 1000000 * (1/12) ∧
    (HWC.estimate_gpu_vram_recommendations 10000000 0).required = 5/6 ∧
    (∀ s ∈ (HWC.estimate_cfd_requirements 10000000 64 4 2700 20 2 64 0).2,
      (HWC.estimate_gpu_vram_recommendations 10000000 0).ratio ≤ s.ratio) ∧
    (HWC.estimate_cfd_requirements 10000000 64 4 2700 20 2 64 0).2.head? =
      some (HWC.estimate_gpu_vram_recommendations 10000000 0)) :=
  ⟨by norm_num, by norm_num, by norm_num, by norm_num, by norm_num, by norm_num, by norm_num,
    C7_gpu_zero_vram 10000000 64 4 2700 20 2 64 (by norm_num) (by norm_num) (by norm_num)
      (by norm_num) (by norm_num) (by norm_num) (by norm_num)⟩

/-- C8: for positive core count, RAM speed and channel count, the
RAM-bandwidth estimator's ratio is
`(channels * speed * 1e6 * 8 / 1e9 * 0.7) / (cores * 2)`, and at 4 channels,
2700 MT/s and 20 cores the actual bandwidth is 60.48 GB/s, the required
bandwidth is 40 GB/s and the ratio is 1.512 with the pass mark. -/
theorem C8_ram_bandwidth_estimator (cores speed channels : ℚ)
    (hcore : 0 < cores) (hsp : 0 < speed) (hch : 0 < channels) :
    (HWC.estimate_bottleneck_ram_bandwidth cores speed channels).ratio =
      channels * speed * 1000000 * 8 / 1000000000 * (7/10) / (cores * 2) ∧
    (HWC.estimate_bottleneck_ram_bandwidth 20 2700 4).actual = 6048/100 ∧
    (HWC.estimate_bottleneck_ram_bandwidth 20 2700 4).required = 40 ∧
    (HWC.estimate_bottleneck_ram_bandwidth 20 2700 4).ratio = 1512/1000 ∧
    (HWC.estimate_bottleneck_ram_bandwidth 20 2700 4).mark = "[✓]" := by
  refine ⟨?_, ?_, ?_, ?_, ?_⟩
  · rw [HWC.ratio_ram_bandwidth]; ring
  · show (2700 * 1000000 * 8 * 4 / 1000000000 * (7/10) : ℚ) = 6048/100
    norm_num
  · show ((20 : ℚ) * 2) = 40
    norm_num
  · rw [HWC.ratio_ram_bandwidth]; norm_num
  · norm_num [HWC.estimate_bottleneck_ram_bandwidth, mark_checked]

/-- Witness for C8 at the spec's Example 4 inputs. -/
theorem C8_witness :
    (0 : ℚ) < 20 ∧ (0 : ℚ) < 2700 ∧ (0 : ℚ) < 4 ∧
    ((HWC.estimate_bottleneck_ram_bandwidth 20 2700 4).ratio =
      4 * 2700 * 1000000 * 8 / 1000000000 * (7/10) / (20 * 2) ∧
    (HWC.estimate_bottleneck_ram_bandwidth 20 2700 4).actual = 6048/100 ∧
    (HWC.estimate_bottleneck_ram_bandwidth 20 2700 4).required = 40 ∧
    (HWC.estimate_bottleneck_ram_bandwidth 20 2700 4).ratio = 1512/1000 ∧
    (HWC.estimate_bottleneck_ram_bandwidth 20 2700 4).mark = "[✓]") :=
  ⟨by norm_num, by norm_num, by norm_num,
    C8_ram_bandwidth_estimator 20 2700 4 (by norm_num) (by norm_num) (by norm_num)⟩

/-- C9: doubling the cell count while holding the hardware fixed never
increases any resource's ratio: every result of the doubled-cells run has a
ratio at most that of the same-titled result of the original run (the three
cell-dependent ratios shrink, the four cell-independent ones are
unchanged). -/
theorem C9_doubling_cells (cells ram channels speed cores ghz cache vram : ℚ)
    (hc : 0 < cells) (hcore : 0 < cores) (hram : 0 ≤ ram) (hvram : 0 ≤ vram) :
    ∀ r ∈ (HWC.estimate_cfd_requirements (2*cells) ram channels speed cores ghz cache vram).2,
      ∀ s ∈ (HWC.estimate_cfd_requirements cells ram channels speed cores ghz cache vram).2,
        r.title = s.title → r.ratio ≤ s.ratio := by
  intro r hr s hs ht
  have hr2 : r ∈ rank [HWC.estimate_bottleneck_ram_capacity (2*cells) ram,
      HWC.estimate_bottleneck_ram_channels cores channels,
      HWC.estimate_bottleneck_ram_bandwidth cores speed channels,
      (HWC.estimate_bottleneck_cpu_count (2*cells) cores).2,
      HWC.estimate_bottleneck_cpu_speed ghz,
      HWC.estimate_bottleneck_cpu_l3_cache cores cache,
      HWC.estimate_gpu_vram_recommendations (2*cells) vram] := hr
  have hs2 : s ∈ rank [HWC.estimate_bottleneck_ram_capacity cells ram,
      HWC.estimate_bottleneck_ram_channels cores channels,
      HWC.estimate_bottleneck_ram_bandwidth cores speed channels,
      (HWC.estimate_bottleneck_cpu_count cells cores).2,
      HWC.estimate_bottleneck_cpu_speed ghz,
      HWC.estimate_bottleneck_cpu_l3_cache cores cache,
      HWC.estimate_gpu_vram_recommendations cells vram] := hs
  rw [mem_rank_iff] at hr2 hs2
  simp only [List.mem_cons, List.not_mem_nil, or_false] at hr2 hs2
  rcases hr2 with rfl | rfl | rfl | rfl | rfl | rfl | rfl <;>
    rcases hs2 with rfl | rfl | rfl | rfl | rfl | rfl | rfl <;>
    first
      | exact le_rfl
      | (rw [HWC.ratio_ram_capacity, HWC.ratio_ram_capacity]
         exact div_le_div_of_nonneg_left hram (by positivity) (by linarith))
      | (rw [HWC.ratio_cpu_count, HWC.ratio_cpu_count]
         exact div_le_div_of_nonneg_left hcore.le (by positivity) (by linarith))
      | (rw [HWC.ratio_gpu, HWC.ratio_gpu]
         exact div_le_div_of_nonneg_left hvram (by positivity) (by linarith))
      | (simp only [HWC.title_ram_capacity, HWC.title_ram_channels, HWC.title_ram_bandwidth,
           HWC.title_cpu_count, HWC.title_cpu_speed, HWC.title_cpu_l3, HWC.title_gpu] at ht
         exact absurd ht (by decide))

/-- Witness for C9 at a one-of-everything profile. -/
theorem C9_witness :
    (0 : ℚ) < 1 ∧ (0 : ℚ) < 1 ∧ (0 : ℚ) ≤ 1 ∧ (0 : ℚ) ≤ 1 ∧
    (∀ r ∈ (HWC.estimate_cfd_requirements (2*1) 1 1 1 1 1 1 1).2,
      ∀ s ∈ (HWC.estimate_cfd_requirements 1 1 1 1 1 1 1 1).2,
        r.title = s.title → r.ratio ≤ s.ratio) :=
  ⟨by norm_num, by norm_num, by norm_num, by norm_num,
    C9_doubling_cells 1 1 1 1 1 1 1 1 (by norm_num) (by norm_num) (by norm_num) (by norm_num)⟩

/-- C10: both variants' full evaluations are deterministic and stateless:
the ranked results and the appended output lines depend only on the
arguments, whatever was already on the output stream, and the run only
appends its own advisory and report lines to that stream. -/
theorem C10_deterministic_stateless
    (cells ram channels speed procs cores ghz cache vram : ℚ) (stdout stdout2 : List String) :
    HWC.runChecker cells ram channels speed cores ghz cache vram stdout =
      (stdout ++ (HWC.runChecker cells ram channels speed cores ghz cache vram []).1,
        (HWC.runChecker cells ram channels speed cores ghz cache vram []).2) ∧
    (HWC.runChecker cells ram channels speed cores ghz cache vram stdout).2 =
      (HWC.runChecker cells ram channels speed cores ghz cache vram stdout2).2 ∧
    OFHC.runChecker cells ram channels speed procs cores ghz cache vram stdout =
      (stdout ++ (OFHC.runChecker cells ram channels speed procs cores ghz cache vram []).1,
        (OFHC.runChecker cells ram channels speed procs cores ghz cache vram []).2) ∧
    (OFHC.runChecker cells ram channels speed procs cores ghz cache vram stdout).2 =
      (OFHC.runChecker cells ram channels speed procs cores ghz cache vram stdout2).2 := by
  refine ⟨?_, rfl, ?_, rfl⟩
  · simp [HWC.runChecker]
  · simp [OFHC.runChecker]
